import Mathlib

/-!
Verification of the survey-module builder application.

This file shallowly embeds the parts of the repository that the design
document makes claims about:

* the resource client (`createModule`, `updateModule`, `updateSurvey`,
  `createSurvey` from the API service file);
* the duplicate-cleanup sweep (`handleCleanupDuplicates` in `App.jsx`);
* the builder save procedure (`saveSurveyFunc` in `AddModule.jsx`, the
  version with the concurrency guard and content comparison).

Documents are modelled as flat association lists of string key/value
pairs: the application treats the survey document as opaque JSON and only
ever (a) serializes it, (b) checks emptiness via the number of keys, and
(c) reads a `title` field, so this value space represents every behaviour
the code exercises on documents.  Timestamps are modelled as naturals
(`new Date(t)` round-trips, and subtraction compares them); user-facing
date strings (`toLocaleDateString`) are passed in as an opaque `today`
parameter.
-/

/-- Opaque survey document: a flat JSON object (key/value pairs in order). -/
abbrev Doc := List (String × String)

/-- Model of `JSON.stringify` on a flat document (injective on `Doc`). -/
def stringifyDoc (d : Doc) : String :=
  "\x7b" ++ String.intercalate "," (d.map fun p => "\x22" ++ p.1 ++ "\x22:\x22" ++ p.2 ++ "\x22") ++ "\x7d"

/-- JavaScript `a || b` on optional strings: the empty string is falsy. -/
def jsOrStr (v : Option String) (dflt : String) : String :=
  match v with
  | some s => if s = "" then dflt else s
  | none => dflt

/-- JavaScript `a || b` on optional timestamps: `0` is falsy. -/
def jsOrTime (a b : Option Nat) : Option Nat :=
  match a with
  | some n => if n = 0 then (match b with | some m => if m = 0 then none else some m | none => none) else some n
  | none => match b with | some m => if m = 0 then none else some m | none => none

/-- JavaScript truthiness of an optional numeric id (`0` is falsy). -/
def jsTruthyId : Option Nat → Bool
  | some n => n ≠ 0
  | none => false

/-- A module record.  Every field is optional, mirroring a JS object where
a key may be absent; `id` is server-assigned. -/
structure ModuleRec where
  id : Option Nat := none
  name : Option String := none
  description : Option String := none
  status : Option String := none
  surveyJson : Option Doc := none
  form_data : Option Doc := none
  createdAt : Option Nat := none
  updatedAt : Option Nat := none
deriving Repr, DecidableEq

/-- The backend collection (json-server): stored records and the next
fresh id it will assign. -/
structure Backend where
  store : List (Nat × ModuleRec) := []
  nextId : Nat := 1
deriving Repr, DecidableEq

/-- Lookup for `GET /modules/id`: `none` models the 404 / NotFound case. -/
def Backend.get (b : Backend) (id : Nat) : Option ModuleRec :=
  b.store.lookup id

/-- Creation for `POST /modules`: the server assigns a fresh id and stores the payload. -/
def Backend.create (b : Backend) (payload : ModuleRec) : ModuleRec × Backend :=
  let stored := { payload with id := some b.nextId }
  (stored, { store := b.store ++ [(b.nextId, stored)], nextId := b.nextId + 1 })

/-- Replacement for `PUT /modules/id`: replaces the stored record with the payload
(keeping the id) and returns it. -/
def Backend.put (b : Backend) (id : Nat) (payload : ModuleRec) : ModuleRec × Backend :=
  let stored := { payload with id := some id }
  (stored, { b with store := b.store.map fun p => if p.1 = id then (id, stored) else p })

/-- A create/update HTTP request emitted by the resource client.  (GET
requests carry no payload and are not claims material, so they are not
tracked.) -/
inductive EmittedOp where
  | post (payload : ModuleRec)
  | put (id : Nat) (payload : ModuleRec)
deriving Repr, DecidableEq

/-- Result of a resource-client operation: the record returned to the
caller, the backend afterwards, and the create/update requests emitted. -/
structure ClientResult where
  result : ModuleRec
  backend : Backend
  emitted : List EmittedOp
deriving Repr, DecidableEq

/-- The default survey document `createModule` substitutes when the caller
supplies neither `surveyJson` nor `form_data` (a flat stand-in for the
sample one-question page; only its presence matters to the claims). -/
def defaultSurveyJson : Doc :=
  [("pages", "page1:sample_question:Sample Question")]

/-- The POST payload built by `createModule`: defaulted name, description
and status, the document taken from `surveyJson` falling back to
`form_data` falling back to the sample document, and both timestamps set
to now.  Note the payload carries no `form_data` key. -/
def createPayload (now : Nat) (moduleData : ModuleRec) : ModuleRec :=
  { name := some (jsOrStr moduleData.name "Untitled Survey")
    description := some (jsOrStr moduleData.description "No description provided")
    status := some (jsOrStr moduleData.status "Active")
    surveyJson := some (((moduleData.surveyJson).orElse fun _ => moduleData.form_data).getD defaultSurveyJson)
    form_data := none
    createdAt := some now
    updatedAt := some now
    id := none }

/-- The `apiService.createModule` operation. -/
def createModule (now : Nat) (moduleData : ModuleRec) (b : Backend) : ClientResult :=
  let p := createPayload now moduleData
  let (rec, b') := b.create p
  ⟨rec, b', [.post p]⟩

/-- JS object spread `\x7b...existing, ...patch\x7d`: keys present in the
patch override the stored record, absent keys fall through. -/
def mergeModule (existing patch : ModuleRec) : ModuleRec :=
  { id := patch.id.orElse fun _ => existing.id
    name := patch.name.orElse fun _ => existing.name
    description := patch.description.orElse fun _ => existing.description
    status := patch.status.orElse fun _ => existing.status
    surveyJson := patch.surveyJson.orElse fun _ => existing.surveyJson
    form_data := patch.form_data.orElse fun _ => existing.form_data
    createdAt := patch.createdAt.orElse fun _ => existing.createdAt
    updatedAt := patch.updatedAt.orElse fun _ => existing.updatedAt }

/-- The PUT payload built by `updateModule` when the module exists:
the overlay with `updatedAt` refreshed, then the `surveyJson`/`form_data`
alias synchronisation keyed on which fields the patch carries. -/
def updatePayload (now : Nat) (existing moduleData : ModuleRec) : ModuleRec :=
  let p := { mergeModule existing moduleData with updatedAt := some now }
  let p := if moduleData.form_data.isSome ∧ moduleData.surveyJson = none then
             { p with surveyJson := moduleData.form_data } else p
  if moduleData.surveyJson.isSome ∧ moduleData.form_data = none then
    { p with form_data := moduleData.surveyJson } else p

/-- The `apiService.updateModule` operation: fetches the stored record first; if the id
is unknown (NotFound) it falls back to `createModule` on the patch (with
a defaulted name mentioning the stale id), otherwise it PUTs the overlay
payload. -/
def updateModule (now : Nat) (id : Nat) (moduleData : ModuleRec) (b : Backend) : ClientResult :=
  match b.get id with
  | none =>
      createModule now { moduleData with name := some (jsOrStr moduleData.name ("Survey " ++ toString id)) } b
  | some existing =>
      let p := updatePayload now existing moduleData
      let (rec, b') := b.put id p
      ⟨rec, b', [.put id p]⟩

/-- The patch object built by `apiService.updateSurvey`: whichever of the
two document fields the caller supplies is copied into both. -/
def updateSurveyData (surveyData : ModuleRec) : ModuleRec :=
  let u : ModuleRec := {}
  let u := if surveyData.surveyJson.isSome then
             { u with surveyJson := surveyData.surveyJson, form_data := surveyData.surveyJson } else u
  if surveyData.form_data.isSome then
    { u with form_data := surveyData.form_data, surveyJson := surveyData.form_data } else u

/-- The `apiService.updateSurvey` operation. -/
def updateSurvey (now : Nat) (id : Nat) (surveyData : ModuleRec) (b : Backend) : ClientResult :=
  updateModule now id (updateSurveyData surveyData) b

/-- The `apiService.createSurvey` operation: passes name, description, defaulted status
and the document through to `createModule`. -/
def createSurvey (now : Nat) (surveyData : ModuleRec) (b : Backend) : ClientResult :=
  createModule now
    { name := surveyData.name
      description := surveyData.description
      status := some (jsOrStr surveyData.status "Active")
      surveyJson := surveyData.surveyJson } b

/-!
## Duplicate cleanup (`handleCleanupDuplicates` in `App.jsx`)

The sweep groups the loaded modules by name (JS object keys preserve
first-occurrence order), sorts each group of size greater than one
descending by `updatedAt || createdAt` with the stable JavaScript sort, and
deletes every member after the first, counting only deletions whose
request succeeded (the `try/catch` around each `deleteModule` swallows
individual failures and continues the loop).
-/

/-- The expression `module.name || "Unnamed"` of the sweep. -/
def moduleName (m : ModuleRec) : String :=
  jsOrStr m.name "Unnamed"

/-- The sort key `new Date(m.updatedAt || m.createdAt)`; `none` models an
invalid date (both fields absent or falsy). -/
def dateKey (m : ModuleRec) : Option Nat :=
  jsOrTime m.updatedAt m.createdAt

/-- Sort key with absent dates read as `0` (meaningful only where the key
is known to be present). -/
def keyD (m : ModuleRec) : Nat :=
  (dateKey m).getD 0

/-- Group keys of the JS grouping object, in first-occurrence order. -/
def groupNames (ms : List ModuleRec) : List String :=
  ms.foldl (fun acc m => if moduleName m ∈ acc then acc else acc ++ [moduleName m]) []

/-- The members of one name group, in load order. -/
def groupOf (ms : List ModuleRec) (n : String) : List ModuleRec :=
  ms.filter fun m => moduleName m = n

/-- The sort comparator `(a, b) => new Date(bKey) - new Date(aKey)` is
non-positive on `(x, y)` exactly when `x` may stay before `y`: keys
descending, with an invalid date comparing as equal (`NaN` is treated as
`0` by the sort). -/
def keyLE (x y : ModuleRec) : Bool :=
  match dateKey x, dateKey y with
  | some kx, some ky => ky ≤ kx
  | _, _ => true

/-- Stable insertion preserving earlier elements on ties, matching the
stable JS sort. -/
def insertDesc (x : ModuleRec) : List ModuleRec → List ModuleRec
  | [] => [x]
  | y :: ys => if keyLE x y then x :: y :: ys else y :: insertDesc x ys

/-- Stable descending sort by `dateKey` (the group sort of the sweep). -/
def sortByDateDesc : List ModuleRec → List ModuleRec
  | [] => []
  | x :: xs => insertDesc x (sortByDateDesc xs)

/-- The `toDelete` slice for one name group: everything after the most
recently updated member, empty for singleton groups. -/
def toDeleteFor (ms : List ModuleRec) (n : String) : List ModuleRec :=
  let g := groupOf ms n
  if 1 < g.length then (sortByDateDesc g).drop 1 else []

/-- All modules the sweep will attempt to delete, in sweep order. -/
def cleanupPlan (ms : List ModuleRec) : List ModuleRec :=
  (groupNames ms).flatMap fun n => toDeleteFor ms n

/-- The deletion loop: every planned module is attempted regardless of
earlier failures (`try/catch` per item); `ok` tells which delete requests
succeed.  Returns the ids attempted, in order, and `deletedCount`. -/
def cleanupLoop (ok : Option Nat → Bool) : List ModuleRec → List (Option Nat) × Nat
  | [] => ([], 0)
  | m :: rest =>
      let r := cleanupLoop ok rest
      (m.id :: r.1, (if ok m.id then 1 else 0) + r.2)

/-- The `handleCleanupDuplicates` routine (the confirmed branch): attempted ids and
the reported removed-count. -/
def handleCleanupDuplicates (ok : Option Nat → Bool) (ms : List ModuleRec) : List (Option Nat) × Nat :=
  cleanupLoop ok (cleanupPlan ms)

/-!
## Builder save session (`saveSurveyFunc` in `AddModule.jsx`)

The session state collects the mutable cells the save procedure reads and
writes.  One point needs care: `saveSurveyFunc` is created inside the
`useEffect` body guarded by `if (!creator)`, so it runs exactly once and
closes over the `currentModuleId` constant of that render.  Later calls
to `setCurrentModuleId` re-render the component and re-run the effect,
but the `if (!creator)` guard makes those runs no-ops, so the save
function keeps reading the originally captured value.  The model
therefore carries two fields: `closureModuleId`, the value the save
procedure branches on (fixed at mount), and `currentModuleId`, the React
state that `setCurrentModuleId` updates (shown in the header).
-/

/-- In-memory save-session state of one open builder instance. -/
structure Session where
  closureModuleId : Option Nat
  currentModuleId : Option Nat
  lastSavedContent : String
  manualSave : Bool
  isSaving : Bool
  saveStatus : String
deriving Repr, DecidableEq

/-- The expression `surveyData?.id || null` (an id of `0` would be falsy). -/
def jsIdOpt : Option Nat → Option Nat
  | some 0 => none
  | x => x

/-- Session state when the builder mounts: both the closure-captured id
and the React state start at `surveyData?.id || null`; the serialized
initial document seeds `lastSavedContentRef`. -/
def mountSession (surveyDataId : Option Nat) (initialContent : String) : Session :=
  { closureModuleId := jsIdOpt surveyDataId
    currentModuleId := jsIdOpt surveyDataId
    lastSavedContent := initialContent
    manualSave := false
    isSaving := false
    saveStatus := "" }

/-- A persistence request issued by the save procedure through the
injected API service. -/
inductive ApiCall where
  | updateSurveyCall (id : Nat) (surveyJson : Doc)
  | createSurveyCall (name description status : String) (surveyJson : Doc)
deriving Repr, DecidableEq

/-- Outcome of a persistence request (`err` carries `error.message`). -/
inductive ApiResult where
  | ok (m : ModuleRec)
  | err (msg : String)
deriving Repr, DecidableEq

/-- Observable effects of processing one save trigger: the network
requests issued, the acknowledgment passed to the widget callback, and
the record handed to the `onSave` navigation callback when invoked.
(Timers — the status-clearing windows and the 1s delay before `onSave`
fires — are elided; the events record that the calls are scheduled.) -/
structure SaveEvents where
  calls : List ApiCall
  ack : Bool
  onSaveCalled : Option ModuleRec
deriving Repr, DecidableEq

/-- Shared success continuation of both branches: record the persisted
content, acknowledge success, schedule `onSave` when the trigger was a
manual save, and clear the manual flag; `finally` releases the guard. -/
def saveSuccess (s : Session) (content : String) (statusMsg : String) (call : ApiCall)
    (result : ModuleRec) (newCurrentId : Option Nat) : Session × SaveEvents :=
  ({ s with currentModuleId := newCurrentId
            saveStatus := statusMsg
            lastSavedContent := content
            manualSave := false
            isSaving := false },
   { calls := [call], ack := true,
     onSaveCalled := if s.manualSave then some result else none })

/-- Shared failure continuation (`catch` then `finally`): display the
failure status, acknowledge failure, keep every other cell (including the
manual flag, which is only reset on the success path) and release the
guard. -/
def saveFailure (s : Session) (msg : String) (call : ApiCall) : Session × SaveEvents :=
  ({ s with saveStatus := "Save failed: " ++ msg, isSaving := false },
   { calls := [call], ack := false, onSaveCalled := none })

/-- One run of `saveSurveyFunc` on a trigger carrying the widget document
`doc`, against an environment `env` answering the API calls (the model
assumes an API service is injected, as `App.jsx` always does; `instance.JSON`
is always an object, so the `!surveyJson` disjunct of the emptiness check
cannot fire and emptiness is `Object.keys(doc).length === 0`). -/
def saveStep (env : ApiCall → ApiResult) (today : String) (s : Session) (doc : Doc) :
    Session × SaveEvents :=
  -- Guard 1: a save already in flight is acknowledged successfully with no work.
  if s.isSaving then
    (s, { calls := [], ack := true, onSaveCalled := none })
  else
    let content := stringifyDoc doc
    -- Guard 2: unchanged content short-circuits unless this is a manual save.
    if content = s.lastSavedContent ∧ s.manualSave = false then
      (s, { calls := [], ack := true, onSaveCalled := none })
    else
      -- isSavingRef.current = true; setSaveStatus(Saving...); then the try block.
      if doc.isEmpty then
        -- throw new Error(Survey data is empty), caught below; finally releases the guard.
        ({ s with saveStatus := "Save failed: Survey data is empty", isSaving := false },
         { calls := [], ack := false, onSaveCalled := none })
      else
        if jsTruthyId s.closureModuleId then
          let call := ApiCall.updateSurveyCall (s.closureModuleId.getD 0) doc
          match env call with
          | .ok r => saveSuccess s content "Updated successfully!" call r s.currentModuleId
          | .err msg => saveFailure s msg call
        else
          let surveyName := jsOrStr (doc.lookup "title") ("Survey " ++ today)
          let call := ApiCall.createSurveyCall surveyName ("Created on " ++ today) "Active" doc
          match env call with
          | .ok r =>
              saveSuccess s content "Created successfully!" call r
                (if jsTruthyId r.id then r.id else s.currentModuleId)
          | .err msg => saveFailure s msg call

/-- A sequence of save triggers processed in order, collecting all
network calls issued. -/
def runSaves (env : ApiCall → ApiResult) (today : String) : Session → List Doc → Session × List ApiCall
  | s, [] => (s, [])
  | s, d :: ds =>
      let (s', ev) := saveStep env today s d
      let (s'', calls) := runSaves env today s' ds
      (s'', ev.calls ++ calls)

/-- The API environment the builder sees when wired to the resource
client over a fixed backend snapshot (sufficient for single-step runs). -/
def clientEnv (now : Nat) (b : Backend) : ApiCall → ApiResult :=
  fun c => match c with
  | .updateSurveyCall id doc => .ok (updateSurvey now id { surveyJson := some doc } b).result
  | .createSurveyCall n d st doc =>
      .ok (createSurvey now { name := some n, description := some d, status := some st, surveyJson := some doc } b).result

/-- A session is steady for a document when a trigger carrying that
document performs no work: either a save is in flight, or the content is
unchanged and no manual save is pending. -/
def steadyFor (s : Session) (doc : Doc) : Prop :=
  s.isSaving = true ∨ (s.manualSave = false ∧ stringifyDoc doc = s.lastSavedContent)

/-!
## Lemmas about the duplicate-cleanup sweep
-/

theorem insertDesc_perm (x : ModuleRec) (l : List ModuleRec) :
    (insertDesc x l).Perm (x :: l) := by
  induction l with
  | nil => simp [insertDesc]
  | cons y ys ih =>
      rw [insertDesc]
      split
      · exact List.Perm.refl _
      · exact (List.Perm.cons y ih).trans (List.Perm.swap x y ys)

theorem sortByDateDesc_perm (l : List ModuleRec) :
    (sortByDateDesc l).Perm l := by
  induction l with
  | nil => exact List.Perm.refl _
  | cons x xs ih =>
      exact (insertDesc_perm x (sortByDateDesc xs)).trans (ih.cons x)

theorem mem_sortByDateDesc {m : ModuleRec} {l : List ModuleRec} :
    m ∈ sortByDateDesc l ↔ m ∈ l :=
  (sortByDateDesc_perm l).mem_iff

theorem keyLE_of_keys {a y : ModuleRec} (ha : (dateKey a).isSome) (hy : (dateKey y).isSome) :
    keyLE a y = true ↔ keyD y ≤ keyD a := by
  rcases Option.isSome_iff_exists.mp ha with ⟨ka, hka⟩
  rcases Option.isSome_iff_exists.mp hy with ⟨ky, hky⟩
  simp [keyLE, keyD, hka, hky]

/-- The head of the sorted group carries the greatest date key, provided
every group member has a valid date. -/
theorem sortByDateDesc_head_max {l : List ModuleRec}
    (hk : ∀ m ∈ l, (dateKey m).isSome) :
    ∀ x xs, sortByDateDesc l = x :: xs → ∀ m ∈ l, keyD m ≤ keyD x := by
  induction l with
  | nil => intro x xs hx; simp [sortByDateDesc] at hx
  | cons a t ih =>
      intro x xs hx m hm
      rw [sortByDateDesc] at hx
      rcases ht : sortByDateDesc t with _ | ⟨y, ys⟩
      · have hts : t = [] := ((ht ▸ sortByDateDesc_perm t).symm).eq_nil
        subst hts
        rw [ht] at hx
        simp [insertDesc] at hx
        rcases List.mem_singleton.mp hm with rfl
        exact le_of_eq (congrArg keyD hx.1)
      · have hy_mem : y ∈ t := mem_sortByDateDesc.mp (ht ▸ List.mem_cons_self y ys)
        have hy_some : (dateKey y).isSome := hk y (List.mem_cons_of_mem a hy_mem)
        have ha_some : (dateKey a).isSome := hk a (List.mem_cons_self a t)
        have hk_t : ∀ m ∈ t, (dateKey m).isSome := fun m hm => hk m (List.mem_cons_of_mem a hm)
        rw [ht, insertDesc] at hx
        by_cases hle : keyLE a y = true
        · rw [if_pos hle] at hx
          injection hx with h1 h2
          subst h1
          rcases List.mem_cons.mp hm with rfl | hmt
          · exact le_rfl
          · have h3 : keyD m ≤ keyD y := ih hk_t y ys ht m hmt
            have h4 : keyD y ≤ keyD a := (keyLE_of_keys ha_some hy_some).mp hle
            exact h3.trans h4
        · rw [if_neg hle] at hx
          injection hx with h1 h2
          subst h1
          rcases List.mem_cons.mp hm with rfl | hmt
          · have h5 : ¬ keyD y ≤ keyD m := by
              intro hcontra
              exact hle ((keyLE_of_keys ha_some hy_some).mpr hcontra)
            exact le_of_lt (lt_of_not_le h5)
          · exact ih hk_t y ys ht m hmt

theorem cleanupLoop_fst (ok : Option Nat → Bool) (l : List ModuleRec) :
    (cleanupLoop ok l).1 = l.map (fun m => m.id) := by
  induction l with
  | nil => rfl
  | cons m rest ih => simp [cleanupLoop, ih]

theorem cleanupLoop_snd (ok : Option Nat → Bool) (l : List ModuleRec) :
    (cleanupLoop ok l).2 = (l.filter fun m => ok m.id).length := by
  induction l with
  | nil => rfl
  | cons m rest ih =>
      by_cases h : ok m.id
      · simp [cleanupLoop, ih, h, Nat.add_comm]
      · simp [cleanupLoop, ih, h]

theorem mem_groupNames_foldl (ms : List ModuleRec) :
    ∀ acc : List String, ∀ n ∈ acc,
      n ∈ ms.foldl (fun acc m => if moduleName m ∈ acc then acc else acc ++ [moduleName m]) acc := by
  induction ms with
  | nil => intro acc n hn; exact hn
  | cons a t ih =>
      intro acc n hn
      simp only [List.foldl_cons]
      apply ih
      by_cases h : moduleName a ∈ acc
      · simp only [if_pos h]; exact hn
      · simp only [if_neg h, List.mem_append]; exact Or.inl hn

theorem mem_groupNames {m : ModuleRec} {ms : List ModuleRec} (hm : m ∈ ms) :
    moduleName m ∈ groupNames ms := by
  unfold groupNames
  have haux : ∀ (l : List ModuleRec) (acc : List String), m ∈ l →
      moduleName m ∈ l.foldl (fun acc m => if moduleName m ∈ acc then acc else acc ++ [moduleName m]) acc := by
    intro l
    induction l with
    | nil => intro acc h; cases h
    | cons a t ih =>
        intro acc hml
        simp only [List.foldl_cons]
        rcases List.mem_cons.mp hml with rfl | hmt
        · apply mem_groupNames_foldl
          by_cases h : moduleName m ∈ acc
          · simp only [if_pos h]; exact h
          · simp only [if_neg h, List.mem_append, List.mem_singleton]
            exact Or.inr trivial
        · exact ih (if moduleName a ∈ acc then acc else acc ++ [moduleName a]) hmt
  exact haux ms [] hm

/-!
## Lemmas about the builder save procedure
-/

theorem saveStep_busy (env : ApiCall → ApiResult) (today : String) (s : Session) (doc : Doc)
    (h : s.isSaving = true) :
    saveStep env today s doc = (s, { calls := [], ack := true, onSaveCalled := none }) := by
  simp [saveStep, h]

theorem saveStep_nochange (env : ApiCall → ApiResult) (today : String) (s : Session) (doc : Doc)
    (h1 : s.isSaving = false) (h2 : stringifyDoc doc = s.lastSavedContent)
    (h3 : s.manualSave = false) :
    saveStep env today s doc = (s, { calls := [], ack := true, onSaveCalled := none }) := by
  simp [saveStep, h1, h2, h3]

theorem saveStep_emptyDoc (env : ApiCall → ApiResult) (today : String) (s : Session) (doc : Doc)
    (h1 : s.isSaving = false)
    (h2 : ¬ (stringifyDoc doc = s.lastSavedContent ∧ s.manualSave = false))
    (h3 : doc = []) :
    saveStep env today s doc =
      ({ s with saveStatus := "Save failed: Survey data is empty", isSaving := false },
       { calls := [], ack := false, onSaveCalled := none }) := by
  subst h3
  simp [saveStep, h1, h2]

theorem saveStep_update_ok (env : ApiCall → ApiResult) (today : String) (s : Session) (doc : Doc)
    (mid : Nat) (r : ModuleRec)
    (h1 : s.isSaving = false)
    (h2 : ¬ (stringifyDoc doc = s.lastSavedContent ∧ s.manualSave = false))
    (h3 : doc ≠ []) (h4 : s.closureModuleId = some mid) (h5 : mid ≠ 0)
    (h6 : env (ApiCall.updateSurveyCall mid doc) = .ok r) :
    saveStep env today s doc =
      saveSuccess s (stringifyDoc doc) "Updated successfully!"
        (ApiCall.updateSurveyCall mid doc) r s.currentModuleId := by
  simp [saveStep, h1, h2, h3, h4, h5, jsTruthyId, h6]

theorem saveStep_update_err (env : ApiCall → ApiResult) (today : String) (s : Session) (doc : Doc)
    (mid : Nat) (msg : String)
    (h1 : s.isSaving = false)
    (h2 : ¬ (stringifyDoc doc = s.lastSavedContent ∧ s.manualSave = false))
    (h3 : doc ≠ []) (h4 : s.closureModuleId = some mid) (h5 : mid ≠ 0)
    (h6 : env (ApiCall.updateSurveyCall mid doc) = .err msg) :
    saveStep env today s doc = saveFailure s msg (ApiCall.updateSurveyCall mid doc) := by
  simp [saveStep, h1, h2, h3, h4, h5, jsTruthyId, h6]

theorem saveStep_create_ok (env : ApiCall → ApiResult) (today : String) (s : Session) (doc : Doc)
    (r : ModuleRec)
    (h1 : s.isSaving = false)
    (h2 : ¬ (stringifyDoc doc = s.lastSavedContent ∧ s.manualSave = false))
    (h3 : doc ≠ []) (h4 : jsTruthyId s.closureModuleId = false)
    (h6 : env (ApiCall.createSurveyCall (jsOrStr (doc.lookup "title") ("Survey " ++ today))
            ("Created on " ++ today) "Active" doc) = .ok r) :
    saveStep env today s doc =
      saveSuccess s (stringifyDoc doc) "Created successfully!"
        (ApiCall.createSurveyCall (jsOrStr (doc.lookup "title") ("Survey " ++ today))
          ("Created on " ++ today) "Active" doc) r
        (if jsTruthyId r.id then r.id else s.currentModuleId) := by
  simp [saveStep, h1, h2, h3, h4, h6]

theorem saveStep_create_err (env : ApiCall → ApiResult) (today : String) (s : Session) (doc : Doc)
    (msg : String)
    (h1 : s.isSaving = false)
    (h2 : ¬ (stringifyDoc doc = s.lastSavedContent ∧ s.manualSave = false))
    (h3 : doc ≠ []) (h4 : jsTruthyId s.closureModuleId = false)
    (h6 : env (ApiCall.createSurveyCall (jsOrStr (doc.lookup "title") ("Survey " ++ today))
            ("Created on " ++ today) "Active" doc) = .err msg) :
    saveStep env today s doc =
      saveFailure s msg
        (ApiCall.createSurveyCall (jsOrStr (doc.lookup "title") ("Survey " ++ today))
          ("Created on " ++ today) "Active" doc) := by
  simp [saveStep, h1, h2, h3, h4, h6]

/-- Every exit of a save run started while no save is in flight leaves the
guard released. -/
theorem saveStep_releases_guard (env : ApiCall → ApiResult) (today : String) (s : Session)
    (doc : Doc) (h : s.isSaving = false) :
    (saveStep env today s doc).1.isSaving = false := by
  rw [saveStep]
  simp only [h]
  split
  · simp at *
  · split
    · exact h
    · split
      · rfl
      · split
        · split <;> simp [saveSuccess, saveFailure]
        · split <;> simp [saveSuccess, saveFailure]

theorem saveStep_steady (env : ApiCall → ApiResult) (today : String) (s : Session) (doc : Doc)
    (h : steadyFor s doc) :
    saveStep env today s doc = (s, { calls := [], ack := true, onSaveCalled := none }) := by
  rcases h with h | ⟨h1, h2⟩
  · exact saveStep_busy env today s doc h
  · rcases hs : s.isSaving with _ | _
    · exact saveStep_nochange env today s doc hs h2 h1
    · exact saveStep_busy env today s doc hs

theorem runSaves_replicate_steady (env : ApiCall → ApiResult) (today : String) (doc : Doc)
    (n : Nat) :
    ∀ s : Session, steadyFor s doc → runSaves env today s (List.replicate n doc) = (s, []) := by
  induction n with
  | zero => intro s _; rfl
  | succ k ih =>
      intro s h
      rw [List.replicate_succ, runSaves, saveStep_steady env today s doc h]
      dsimp only
      rw [ih s h]
      rfl

theorem saveStep_emptyDoc_calls (env : ApiCall → ApiResult) (today : String) (s : Session) :
    (saveStep env today s []).2.calls = [] := by
  rcases hs : s.isSaving with _ | _
  · by_cases h2 : stringifyDoc [] = s.lastSavedContent ∧ s.manualSave = false
    · rw [saveStep_nochange env today s [] hs h2.1 h2.2]
    · rw [saveStep_emptyDoc env today s [] hs h2 rfl]
  · rw [saveStep_busy env today s [] hs]

theorem runSaves_replicate_emptyDoc (env : ApiCall → ApiResult) (today : String) (n : Nat) :
    ∀ s : Session, (runSaves env today s (List.replicate n [])).2 = [] := by
  induction n with
  | zero => intro s; rfl
  | succ k ih =>
      intro s
      rw [List.replicate_succ, runSaves]
      have h := saveStep_emptyDoc_calls env today s
      have h2 := ih (saveStep env today s []).1
      rcases hstep : saveStep env today s [] with ⟨s1, ev⟩
      rw [hstep] at h h2
      dsimp only
      rcases hrun : runSaves env today s1 (List.replicate k []) with ⟨s2, calls⟩
      rw [hrun] at h2
      dsimp only
      simp only at h h2
      rw [h, h2]
      rfl

/-- A proceeding trigger against an always-succeeding environment issues
exactly one request and leaves a session that is steady for the same
document. -/
theorem saveStep_allok (f : ApiCall → ModuleRec) (today : String) (s : Session) (doc : Doc)
    (h1 : s.isSaving = false)
    (h2 : ¬ (stringifyDoc doc = s.lastSavedContent ∧ s.manualSave = false))
    (h3 : doc ≠ []) :
    (saveStep (fun c => .ok (f c)) today s doc).2.calls.length = 1 ∧
    (saveStep (fun c => .ok (f c)) today s doc).1.lastSavedContent = stringifyDoc doc ∧
    (saveStep (fun c => .ok (f c)) today s doc).1.manualSave = false ∧
    (saveStep (fun c => .ok (f c)) today s doc).1.isSaving = false := by
  rcases hmid : s.closureModuleId with _ | mid
  · rw [saveStep_create_ok (fun c => .ok (f c)) today s doc _ h1 h2 h3 (by simp [jsTruthyId, hmid]) rfl]
    simp [saveSuccess]
  · by_cases hz : mid = 0
    · rw [saveStep_create_ok (fun c => .ok (f c)) today s doc _ h1 h2 h3 (by simp [jsTruthyId, hmid, hz]) rfl]
      simp [saveSuccess]
    · rw [saveStep_update_ok (fun c => .ok (f c)) today s doc mid _ h1 h2 h3 hmid hz rfl]
      simp [saveSuccess]

/-!
## Claim theorems
-/

/-- C3: a save trigger arriving while a save is in flight performs no
network work and no state mutation, yet still acknowledges the trigger
with success — so at most one persistence request is ever outstanding per
save session. -/
theorem c3_saveInFlight_mutual_exclusion (env : ApiCall → ApiResult) (today : String)
    (s : Session) (doc : Doc) (h : s.isSaving = true) :
    saveStep env today s doc = (s, { calls := [], ack := true, onSaveCalled := none }) :=
  saveStep_busy env today s doc h

theorem c3_witness :
    saveStep (fun _ => ApiResult.err "offline") "d"
        { closureModuleId := none, currentModuleId := none, lastSavedContent := "x",
          manualSave := false, isSaving := true, saveStatus := "Saving..." } [("q", "1")] =
      ({ closureModuleId := none, currentModuleId := none, lastSavedContent := "x",
         manualSave := false, isSaving := true, saveStatus := "Saving..." },
       { calls := [], ack := true, onSaveCalled := none }) :=
  c3_saveInFlight_mutual_exclusion _ _ _ _ rfl

/-- C5: a proceeding save attempt whose document is the empty object
fails with the empty-document error (status and failure acknowledgment),
and no save trigger carrying an empty document ever issues a network
call. -/
theorem c5_empty_document_rejected (env : ApiCall → ApiResult) (today : String) (s : Session)
    (h1 : s.isSaving = false)
    (h2 : ¬ (stringifyDoc ([] : Doc) = s.lastSavedContent ∧ s.manualSave = false)) :
    saveStep env today s [] =
      ({ s with saveStatus := "Save failed: Survey data is empty", isSaving := false },
       { calls := [], ack := false, onSaveCalled := none }) ∧
    ∀ s' : Session, (saveStep env today s' []).2.calls = [] :=
  ⟨saveStep_emptyDoc env today s [] h1 h2 rfl, fun s' => saveStep_emptyDoc_calls env today s'⟩

theorem c5_witness :
    saveStep (fun _ => ApiResult.ok { id := some 9 }) "d"
        { closureModuleId := none, currentModuleId := none, lastSavedContent := "x",
          manualSave := false, isSaving := false, saveStatus := "" } [] =
      ({ closureModuleId := none, currentModuleId := none, lastSavedContent := "x",
         manualSave := false, isSaving := false, saveStatus := "Save failed: Survey data is empty" },
       { calls := [], ack := false, onSaveCalled := none }) ∧
    ∀ s' : Session, (saveStep (fun _ => ApiResult.ok { id := some 9 }) "d" s' []).2.calls = [] :=
  c5_empty_document_rejected _ "d" _ rfl (by decide)

/-- C8: when the persistence attempt of a proceeding save fails, the
session status becomes the failure message, the held module id (both the
closure-captured value and the React state) is unchanged, the last
persisted content is unchanged, the acknowledgment reports failure, and
the in-flight guard is released — and the guard is released on every exit
path of a save run that was allowed to start. -/
theorem c8_failure_path (env : ApiCall → ApiResult) (today : String) (s : Session) (doc : Doc)
    (msg : String)
    (h1 : s.isSaving = false)
    (h2 : ¬ (stringifyDoc doc = s.lastSavedContent ∧ s.manualSave = false))
    (h3 : doc ≠ [])
    (henv : ∀ c, env c = .err msg) :
    ((saveStep env today s doc).1.saveStatus = "Save failed: " ++ msg ∧
     (saveStep env today s doc).1.currentModuleId = s.currentModuleId ∧
     (saveStep env today s doc).1.closureModuleId = s.closureModuleId ∧
     (saveStep env today s doc).1.lastSavedContent = s.lastSavedContent ∧
     (saveStep env today s doc).1.isSaving = false ∧
     (saveStep env today s doc).2.ack = false) ∧
    (∀ (env' : ApiCall → ApiResult) (today' : String) (s' : Session) (doc' : Doc),
       s'.isSaving = false → (saveStep env' today' s' doc').1.isSaving = false) := by
  constructor
  · rcases hmid : s.closureModuleId with _ | mid
    · rw [saveStep_create_err env today s doc msg h1 h2 h3 (by rw [hmid]; rfl) (henv _)]
      exact ⟨rfl, rfl, hmid, rfl, rfl, rfl⟩
    · by_cases hz : mid = 0
      · rw [saveStep_create_err env today s doc msg h1 h2 h3 (by rw [hmid, hz]; rfl) (henv _)]
        exact ⟨rfl, rfl, hmid, rfl, rfl, rfl⟩
      · rw [saveStep_update_err env today s doc mid msg h1 h2 h3 hmid hz (henv _)]
        exact ⟨rfl, rfl, hmid, rfl, rfl, rfl⟩
  · exact fun env' today' s' doc' h => saveStep_releases_guard env' today' s' doc' h

theorem c8_witness :
    ((saveStep (fun _ => ApiResult.err "HTTP 500") "d"
        { closureModuleId := some 4, currentModuleId := some 4, lastSavedContent := "x",
          manualSave := false, isSaving := false, saveStatus := "" } [("q", "1")]).1.saveStatus =
          "Save failed: HTTP 500" ∧
     (saveStep (fun _ => ApiResult.err "HTTP 500") "d"
        { closureModuleId := some 4, currentModuleId := some 4, lastSavedContent := "x",
          manualSave := false, isSaving := false, saveStatus := "" } [("q", "1")]).1.currentModuleId = some 4 ∧
     (saveStep (fun _ => ApiResult.err "HTTP 500") "d"
        { closureModuleId := some 4, currentModuleId := some 4, lastSavedContent := "x",
          manualSave := false, isSaving := false, saveStatus := "" } [("q", "1")]).1.closureModuleId = some 4 ∧
     (saveStep (fun _ => ApiResult.err "HTTP 500") "d"
        { closureModuleId := some 4, currentModuleId := some 4, lastSavedContent := "x",
          manualSave := false, isSaving := false, saveStatus := "" } [("q", "1")]).1.lastSavedContent = "x" ∧
     (saveStep (fun _ => ApiResult.err "HTTP 500") "d"
        { closureModuleId := some 4, currentModuleId := some 4, lastSavedContent := "x",
          manualSave := false, isSaving := false, saveStatus := "" } [("q", "1")]).1.isSaving = false ∧
     (saveStep (fun _ => ApiResult.err "HTTP 500") "d"
        { closureModuleId := some 4, currentModuleId := some 4, lastSavedContent := "x",
          manualSave := false, isSaving := false, saveStatus := "" } [("q", "1")]).2.ack = false) ∧
    (∀ (env' : ApiCall → ApiResult) (today' : String) (s' : Session) (doc' : Doc),
       s'.isSaving = false → (saveStep env' today' s' doc').1.isSaving = false) :=
  c8_failure_path _ "d" _ _ "HTTP 500" rfl (by decide) (by decide) (fun _ => rfl)

/-- C9: a proceeding save that succeeds records the saved content as the
last persisted content, acknowledges success, clears the manual-save
flag, and hands the module record returned by the persistence to the
`onSave` navigation callback exactly when the trigger was a manual save —
a successful autosave invokes no callback. -/
theorem c9_success_callback (f : ApiCall → ModuleRec) (today : String) (s : Session) (doc : Doc)
    (h1 : s.isSaving = false)
    (h2 : ¬ (stringifyDoc doc = s.lastSavedContent ∧ s.manualSave = false))
    (h3 : doc ≠ []) :
    ∃ c : ApiCall,
      (saveStep (fun c => .ok (f c)) today s doc).2.calls = [c] ∧
      (saveStep (fun c => .ok (f c)) today s doc).2.onSaveCalled =
        (if s.manualSave then some (f c) else none) ∧
      (saveStep (fun c => .ok (f c)) today s doc).2.ack = true ∧
      (saveStep (fun c => .ok (f c)) today s doc).1.lastSavedContent = stringifyDoc doc ∧
      (saveStep (fun c => .ok (f c)) today s doc).1.manualSave = false := by
  rcases hmid : s.closureModuleId with _ | mid
  · refine ⟨ApiCall.createSurveyCall (jsOrStr (doc.lookup "title") ("Survey " ++ today))
      ("Created on " ++ today) "Active" doc, ?_⟩
    rw [saveStep_create_ok (fun c => .ok (f c)) today s doc _ h1 h2 h3 (by rw [hmid]; rfl) rfl]
    exact ⟨rfl, rfl, rfl, rfl, rfl⟩
  · by_cases hz : mid = 0
    · refine ⟨ApiCall.createSurveyCall (jsOrStr (doc.lookup "title") ("Survey " ++ today))
        ("Created on " ++ today) "Active" doc, ?_⟩
      rw [saveStep_create_ok (fun c => .ok (f c)) today s doc _ h1 h2 h3 (by rw [hmid, hz]; rfl) rfl]
      exact ⟨rfl, rfl, rfl, rfl, rfl⟩
    · refine ⟨ApiCall.updateSurveyCall mid doc, ?_⟩
      rw [saveStep_update_ok (fun c => .ok (f c)) today s doc mid _ h1 h2 h3 hmid hz rfl]
      exact ⟨rfl, rfl, rfl, rfl, rfl⟩

theorem c9_witness :
    ∃ c : ApiCall,
      (saveStep (fun _ => ApiResult.ok { id := some 8, name := some "S" }) "d"
        { closureModuleId := some 8, currentModuleId := some 8, lastSavedContent := "x",
          manualSave := true, isSaving := false, saveStatus := "" } [("q", "1")]).2.calls = [c] ∧
      (saveStep (fun _ => ApiResult.ok { id := some 8, name := some "S" }) "d"
        { closureModuleId := some 8, currentModuleId := some 8, lastSavedContent := "x",
          manualSave := true, isSaving := false, saveStatus := "" } [("q", "1")]).2.onSaveCalled =
        (if ({ closureModuleId := some 8, currentModuleId := some 8, lastSavedContent := "x",
               manualSave := true, isSaving := false, saveStatus := "" } : Session).manualSave then
           some ({ id := some 8, name := some "S" } : ModuleRec) else none) ∧
      (saveStep (fun _ => ApiResult.ok { id := some 8, name := some "S" }) "d"
        { closureModuleId := some 8, currentModuleId := some 8, lastSavedContent := "x",
          manualSave := true, isSaving := false, saveStatus := "" } [("q", "1")]).2.ack = true ∧
      (saveStep (fun _ => ApiResult.ok { id := some 8, name := some "S" }) "d"
        { closureModuleId := some 8, currentModuleId := some 8, lastSavedContent := "x",
          manualSave := true, isSaving := false, saveStatus := "" } [("q", "1")]).1.lastSavedContent =
        stringifyDoc [("q", "1")] ∧
      (saveStep (fun _ => ApiResult.ok { id := some 8, name := some "S" }) "d"
        { closureModuleId := some 8, currentModuleId := some 8, lastSavedContent := "x",
          manualSave := true, isSaving := false, saveStatus := "" } [("q", "1")]).1.manualSave = false :=
  c9_success_callback (fun _ => { id := some 8, name := some "S" }) "d" _ _ rfl (by decide) (by decide)

/-- C4 counterexample: with a failing backend, two consecutive
identical-content autosave triggers both issue a network call, so the
unconditional "at most one create/update call over N identical triggers"
fails. -/
theorem c4_counterexample :
    ¬ (runSaves (fun _ => ApiResult.err "network down") "d"
         (mountSession none "init") (List.replicate 2 [("q", "1")])).2.length ≤ 1 := by
  decide

/-- C4 (amended): an autosave trigger whose serialized content equals the
last persisted content is a no-op success issuing no network call and
mutating nothing; consequently, when the issued persistence attempts
succeed, N consecutive identical-content autosave triggers issue at most
one create/update call in total. -/
theorem c4_idempotent_autosave (f : ApiCall → ModuleRec) (today : String) (s : Session)
    (doc : Doc) (n : Nat) (hmanual : s.manualSave = false) :
    (s.isSaving = false → stringifyDoc doc = s.lastSavedContent →
       saveStep (fun c => .ok (f c)) today s doc =
         (s, { calls := [], ack := true, onSaveCalled := none })) ∧
    (runSaves (fun c => .ok (f c)) today s (List.replicate n doc)).2.length ≤ 1 := by
  constructor
  · intro hs heq
    exact saveStep_nochange _ today s doc hs heq hmanual
  · by_cases hsteady : steadyFor s doc
    · rw [runSaves_replicate_steady _ today doc n s hsteady]
      simp
    · have hs : s.isSaving = false := by
        cases hb : s.isSaving with
        | false => rfl
        | true => exact absurd (Or.inl hb) hsteady
      have hne : ¬ stringifyDoc doc = s.lastSavedContent :=
        fun heq => hsteady (Or.inr ⟨hmanual, heq⟩)
      by_cases hdoc : doc = []
      · subst hdoc
        rw [runSaves_replicate_emptyDoc (fun c => .ok (f c)) today n s]
        simp
      · cases n with
        | zero => simp [runSaves]
        | succ k =>
            rw [List.replicate_succ, runSaves]
            obtain ⟨hlen, hlast, hman, hsave⟩ :=
              saveStep_allok f today s doc hs (fun hand => hne hand.1) hdoc
            rcases hstep : saveStep (fun c => .ok (f c)) today s doc with ⟨s1, ev⟩
            rw [hstep] at hlen hlast hman
            have hsteady1 : steadyFor s1 doc := Or.inr ⟨hman, hlast.symm⟩
            dsimp only
            rw [runSaves_replicate_steady _ today doc k s1 hsteady1]
            dsimp only
            simp only [List.append_nil]
            exact le_of_eq hlen

theorem c4_witness :
    ((mountSession none "init").isSaving = false →
       stringifyDoc [("q", "1")] = (mountSession none "init").lastSavedContent →
       saveStep (fun _ => ApiResult.ok ({ id := some 7 } : ModuleRec)) "d"
           (mountSession none "init") [("q", "1")] =
         (mountSession none "init", { calls := [], ack := true, onSaveCalled := none })) ∧
    (runSaves (fun _ => ApiResult.ok ({ id := some 7 } : ModuleRec)) "d"
        (mountSession none "init") (List.replicate 3 [("q", "1")])).2.length ≤ 1 :=
  c4_idempotent_autosave (fun _ => { id := some 7 }) "d" (mountSession none "init")
    [("q", "1")] 3 rfl

/-- C1: behaviour of the save procedure at the failing input.  In a
fresh-survey session, the first successful create returns id 101 and the
id is captured into the React state, yet the next save with changed
content still issues a create — `saveSurveyFunc` was built once under the
`if (!creator)` guard and branches on the closure-captured initial
`currentModuleId`, which `setCurrentModuleId` never updates — so the
"every save after the first create is an update" invariant fails. -/
theorem c1_stale_closure_creates_again :
    ((saveStep (fun _ => ApiResult.ok { id := some 101 }) "d" (mountSession none "init")
        [("q", "1")]).1.currentModuleId = some 101) ∧
    ((saveStep (fun _ => ApiResult.ok { id := some 101 }) "d" (mountSession none "init")
        [("q", "1")]).2.calls =
      [ApiCall.createSurveyCall "Survey d" "Created on d" "Active" [("q", "1")]]) ∧
    ((saveStep (fun _ => ApiResult.ok { id := some 102 }) "d"
        (saveStep (fun _ => ApiResult.ok { id := some 101 }) "d" (mountSession none "init")
          [("q", "1")]).1 [("q", "2")]).2.calls =
      [ApiCall.createSurveyCall "Survey d" "Created on d" "Active" [("q", "2")]]) := by
  decide

/-- C2: the duplicate-cleanup sweep groups modules by name (absent name
read as "Unnamed"); in every group with more than one member it keeps a
member carrying the greatest `updatedAt`-falling-back-to-`createdAt` key
and plans to delete exactly the remaining members; the name group of
every loaded module is considered; the deletions attempted do not depend on which
individual deletions fail, and the reported removed-count is exactly the
number of deletions that succeeded; on the example list of the design
it deletes id 1 only and reports a removed-count of 1. -/
theorem c2_duplicate_cleanup (ms : List ModuleRec) (ok : Option Nat → Bool)
    (hk : ∀ m ∈ ms, 1 < (groupOf ms (moduleName m)).length → (dateKey m).isSome) :
    (∀ n : String, 1 < (groupOf ms n).length →
       ∃ keep rest, sortByDateDesc (groupOf ms n) = keep :: rest ∧
         keep ∈ groupOf ms n ∧
         (∀ m ∈ groupOf ms n, keyD m ≤ keyD keep) ∧
         toDeleteFor ms n = rest ∧
         (keep :: rest).Perm (groupOf ms n)) ∧
    (∀ m ∈ ms, moduleName m ∈ groupNames ms) ∧
    (handleCleanupDuplicates ok ms).1 = (cleanupPlan ms).map (fun m => m.id) ∧
    (handleCleanupDuplicates ok ms).2 = ((cleanupPlan ms).filter fun m => ok m.id).length ∧
    handleCleanupDuplicates (fun _ => true)
        [{ id := some 1, name := some "A", updatedAt := some 1 },
         { id := some 2, name := some "A", updatedAt := some 2 },
         { id := some 3, name := some "B" }] = ([some 1], 1) ∧
    cleanupPlan
        [{ id := some 1, name := some "A", updatedAt := some 1 },
         { id := some 2, name := some "A", updatedAt := some 2 },
         { id := some 3, name := some "B" }] =
      [{ id := some 1, name := some "A", updatedAt := some 1 }] := by
  refine ⟨?_, fun m hm => mem_groupNames hm, cleanupLoop_fst ok _, cleanupLoop_snd ok _,
    by decide, by decide⟩
  intro n hlen
  have hkg : ∀ m ∈ groupOf ms n, (dateKey m).isSome := by
    intro m hm
    have hmem := List.mem_filter.mp hm
    have hname : moduleName m = n := of_decide_eq_true hmem.2
    exact hk m hmem.1 (hname ▸ hlen)
  rcases hsort : sortByDateDesc (groupOf ms n) with _ | ⟨keep, rest⟩
  · exfalso
    have hnil : groupOf ms n = [] :=
      ((hsort ▸ sortByDateDesc_perm (groupOf ms n)).symm).eq_nil
    rw [hnil] at hlen
    simp at hlen
  · refine ⟨keep, rest, rfl, ?_, ?_, ?_, ?_⟩
    · exact mem_sortByDateDesc.mp (hsort ▸ List.mem_cons_self keep rest)
    · exact fun m hm => sortByDateDesc_head_max hkg keep rest hsort m hm
    · simp [toDeleteFor, hlen, hsort]
    · exact hsort ▸ sortByDateDesc_perm (groupOf ms n)

theorem c2_witness :
    handleCleanupDuplicates (fun _ => true)
        [{ id := some 1, name := some "A", updatedAt := some 1 },
         { id := some 2, name := some "A", updatedAt := some 2 },
         { id := some 3, name := some "B" }] = ([some 1], 1) :=
  (c2_duplicate_cleanup
      [{ id := some 1, name := some "A", updatedAt := some 1 },
       { id := some 2, name := some "A", updatedAt := some 2 },
       { id := some 3, name := some "B" }] (fun _ => true) (by decide)).2.2.2.2.1

/-- C6 counterexample: against an empty backend, a builder session
holding stale id 5 saves; the client falls back to create and the backend
returns the fresh record with id 1, but the session still holds id 5
afterwards (in both the React state and the closure-captured value) — the
returned identifier does not replace the held id of the session. -/
theorem c6_counterexample :
    ((updateSurvey 10 5 { surveyJson := some [("q", "1")] } {}).result.id = some 1) ∧
    ((saveStep (clientEnv 10 {}) "d" (mountSession (some 5) "init") [("q", "1")]).2.calls =
       [ApiCall.updateSurveyCall 5 [("q", "1")]]) ∧
    ((saveStep (clientEnv 10 {}) "d" (mountSession (some 5) "init") [("q", "1")]).1.currentModuleId =
       some 5) ∧
    ((saveStep (clientEnv 10 {}) "d" (mountSession (some 5) "init") [("q", "1")]).1.closureModuleId =
       some 5) := by
  decide

/-- C6 (amended): when the backend does not recognize the identifier,
`updateModule` falls back to a single POST of the create payload built
from the patch and returns the freshly created record (a successful
upsert, not an error); the update branch of the builder, however, never
captures a returned identifier — the session keeps its previously held
id for subsequent saves. -/
theorem c6_update_notfound_fallback (now id : Nat) (sd : ModuleRec) (b : Backend)
    (hb : b.get id = none) :
    ((updateModule now id sd b).emitted =
       [EmittedOp.post (createPayload now
          { sd with name := some (jsOrStr sd.name ("Survey " ++ toString id)) })] ∧
     (updateModule now id sd b).result.id = some b.nextId) ∧
    (∀ (env : ApiCall → ApiResult) (today : String) (s : Session) (doc : Doc)
       (mid : Nat) (r : ModuleRec),
       s.isSaving = false →
       ¬ (stringifyDoc doc = s.lastSavedContent ∧ s.manualSave = false) →
       doc ≠ [] → s.closureModuleId = some mid → mid ≠ 0 →
       env (ApiCall.updateSurveyCall mid doc) = .ok r →
       (saveStep env today s doc).1.currentModuleId = s.currentModuleId ∧
       (saveStep env today s doc).1.closureModuleId = s.closureModuleId) := by
  constructor
  · constructor
    · simp [updateModule, hb, createModule, Backend.create]
    · simp [updateModule, hb, createModule, Backend.create]
  · intro env today s doc mid r h1 h2 h3 h4 h5 h6
    rw [saveStep_update_ok env today s doc mid r h1 h2 h3 h4 h5 h6]
    exact ⟨rfl, rfl⟩

theorem c6_witness :
    ((updateModule 10 5 { surveyJson := some [("q", "1")] } {}).emitted =
       [EmittedOp.post (createPayload 10
          { ({ surveyJson := some [("q", "1")] } : ModuleRec) with
              name := some (jsOrStr ({ surveyJson := some [("q", "1")] } : ModuleRec).name
                ("Survey " ++ toString 5)) })] ∧
     (updateModule 10 5 { surveyJson := some [("q", "1")] } {}).result.id =
       some (Backend.nextId {})) ∧
    (∀ (env : ApiCall → ApiResult) (today : String) (s : Session) (doc : Doc)
       (mid : Nat) (r : ModuleRec),
       s.isSaving = false →
       ¬ (stringifyDoc doc = s.lastSavedContent ∧ s.manualSave = false) →
       doc ≠ [] → s.closureModuleId = some mid → mid ≠ 0 →
       env (ApiCall.updateSurveyCall mid doc) = .ok r →
       (saveStep env today s doc).1.currentModuleId = s.currentModuleId ∧
       (saveStep env today s doc).1.closureModuleId = s.closureModuleId) :=
  c6_update_notfound_fallback 10 5 { surveyJson := some [("q", "1")] } {} rfl

/-- C7 counterexample: `createModule` called with the document under the
legacy alias accepts it into the canonical field, but the POST payload it
emits carries no `form_data` key at all — the alias is not kept equal to
the canonical field. -/
theorem c7_counterexample :
    ((createModule 5 { form_data := some [("q", "1")] } {}).emitted =
       [EmittedOp.post (createPayload 5 { form_data := some [("q", "1")] })]) ∧
    ((createPayload 5 { form_data := some [("q", "1")] }).surveyJson = some [("q", "1")]) ∧
    ((createPayload 5 { form_data := some [("q", "1")] }).form_data = none) ∧
    ¬ ((createPayload 5 { form_data := some [("q", "1")] }).form_data =
         (createPayload 5 { form_data := some [("q", "1")] }).surveyJson) := by
  decide

/-- C7 (amended): both operations accept the survey document under either
the legacy alias `form_data` or the canonical `surveyJson`, and both
always populate the canonical field in their payload; `updateModule`
additionally keeps the alias equal to the canonical field whenever the
patch carries exactly one of the two, and `updateSurvey` builds a patch
carrying both fields equal; `createModule`, however, emits no `form_data`
field. -/
theorem c7_field_normalization (now : Nat) (md ex : ModuleRec) (d : Doc) :
    ((createPayload now md).surveyJson.isSome) ∧
    (md.surveyJson = some d → (createPayload now md).surveyJson = some d) ∧
    (md.surveyJson = none → md.form_data = some d → (createPayload now md).surveyJson = some d) ∧
    ((createPayload now md).form_data = none) ∧
    (md.surveyJson = some d → md.form_data = none →
       (updatePayload now ex md).surveyJson = some d ∧
       (updatePayload now ex md).form_data = some d) ∧
    (md.form_data = some d → md.surveyJson = none →
       (updatePayload now ex md).surveyJson = some d ∧
       (updatePayload now ex md).form_data = some d) ∧
    ((updateSurveyData { surveyJson := some d }).surveyJson = some d ∧
     (updateSurveyData { surveyJson := some d }).form_data = some d) ∧
    ((updateSurveyData { form_data := some d }).surveyJson = some d ∧
     (updateSurveyData { form_data := some d }).form_data = some d) := by
  refine ⟨?_, ?_, ?_, rfl, ?_, ?_, by simp [updateSurveyData], by simp [updateSurveyData]⟩
  · simp [createPayload]
  · intro h
    simp [createPayload, h, Option.orElse]
  · intro h1 h2
    simp [createPayload, h1, h2, Option.orElse]
  · intro h1 h2
    constructor
    · simp [updatePayload, mergeModule, h1, h2, Option.orElse]
    · simp [updatePayload, mergeModule, h1, h2, Option.orElse]
  · intro h1 h2
    constructor
    · simp [updatePayload, mergeModule, h1, h2, Option.orElse]
    · simp [updatePayload, mergeModule, h1, h2, Option.orElse]

theorem c7_witness :
    (updatePayload 3 {} { surveyJson := some [("k", "v")] }).surveyJson = some [("k", "v")] ∧
    (updatePayload 3 {} { surveyJson := some [("k", "v")] }).form_data = some [("k", "v")] :=
  (c7_field_normalization 3 { surveyJson := some [("k", "v")] } {} [("k", "v")]).2.2.2.2.1
    rfl rfl

/-- C10 counterexample: the stored module carries `form_data`; a patch
mentioning only `surveyJson` nevertheless changes the transmitted
`form_data` — the sync branch overwrites the alias, so not every
unmentioned field is transmitted unchanged. -/
theorem c10_counterexample :
    ((updateModule 20 7 { surveyJson := some [("v", "new")] }
        { store := [(7, { id := some 7, name := some "N", surveyJson := some [("v", "old")],
                          form_data := some [("v", "old")] })], nextId := 8 }).emitted =
       [EmittedOp.put 7 (updatePayload 20
          { id := some 7, name := some "N", surveyJson := some [("v", "old")],
            form_data := some [("v", "old")] }
          { surveyJson := some [("v", "new")] })]) ∧
    (({ surveyJson := some [("v", "new")] } : ModuleRec).form_data = none) ∧
    ¬ ((updatePayload 20
          { id := some 7, name := some "N", surveyJson := some [("v", "old")],
            form_data := some [("v", "old")] }
          { surveyJson := some [("v", "new")] }).form_data =
        ({ id := some 7, name := some "N", surveyJson := some [("v", "old")],
           form_data := some [("v", "old")] } : ModuleRec).form_data) := by
  decide

/-- C10 (amended): when the backend holds a module under the id, the
emitted PUT payload is the stored record overlaid with the patch: every
field the patch does not mention is transmitted unchanged and `updatedAt`
is refreshed to now — except the `surveyJson`/`form_data` alias pair,
where a patch carrying exactly one of the two also overwrites the other
to match it. -/
theorem c10_update_frame (now idv : Nat) (md ex : ModuleRec) (b : Backend) (d : Doc)
    (hb : b.get idv = some ex) :
    ((updateModule now idv md b).emitted = [EmittedOp.put idv (updatePayload now ex md)]) ∧
    (md.name = none → (updatePayload now ex md).name = ex.name) ∧
    (md.description = none → (updatePayload now ex md).description = ex.description) ∧
    (md.status = none → (updatePayload now ex md).status = ex.status) ∧
    (md.createdAt = none → (updatePayload now ex md).createdAt = ex.createdAt) ∧
    ((updatePayload now ex md).updatedAt = some now) ∧
    (md.surveyJson = none → md.form_data = none →
       (updatePayload now ex md).surveyJson = ex.surveyJson ∧
       (updatePayload now ex md).form_data = ex.form_data) ∧
    (md.surveyJson = some d → md.form_data = none →
       (updatePayload now ex md).form_data = some d) := by
  refine ⟨by simp [updateModule, hb], ?_, ?_, ?_, ?_, ?_, ?_, ?_⟩
  · intro h
    simp only [updatePayload, mergeModule]
    split_ifs <;> simp [h, Option.orElse]
  · intro h
    simp only [updatePayload, mergeModule]
    split_ifs <;> simp [h, Option.orElse]
  · intro h
    simp only [updatePayload, mergeModule]
    split_ifs <;> simp [h, Option.orElse]
  · intro h
    simp only [updatePayload, mergeModule]
    split_ifs <;> simp [h, Option.orElse]
  · simp only [updatePayload, mergeModule]
    split_ifs <;> rfl
  · intro h1 h2
    constructor
    · simp [updatePayload, mergeModule, h1, h2, Option.orElse]
    · simp [updatePayload, mergeModule, h1, h2, Option.orElse]
  · intro h1 h2
    simp [updatePayload, mergeModule, h1, h2, Option.orElse]

theorem c10_witness :
    ((updateModule 20 7 { surveyJson := some [("v", "new")] }
        { store := [(7, { id := some 7, name := some "N" })], nextId := 8 }).emitted =
       [EmittedOp.put 7 (updatePayload 20 { id := some 7, name := some "N" }
          { surveyJson := some [("v", "new")] })]) ∧
    (updatePayload 20 { id := some 7, name := some "N" }
        { surveyJson := some [("v", "new")] }).name =
      ({ id := some 7, name := some "N" } : ModuleRec).name ∧
    (updatePayload 20 { id := some 7, name := some "N" }
        { surveyJson := some [("v", "new")] }).updatedAt = some 20 :=
  have h := c10_update_frame 20 7 { surveyJson := some [("v", "new")] }
    { id := some 7, name := some "N" }
    { store := [(7, { id := some 7, name := some "N" })], nextId := 8 } [("v", "new")] rfl
  ⟨h.1, h.2.1 rfl, h.2.2.2.2.2.1⟩
